import Mathlib

/-!
Shallow embedding of the LIZREC backend SentraCore data-access layer.

The embedding covers `models/sentra_core.py` (the pydantic shapes),
`controllers/sentra_core_controller.py` (the repository operations over a
Mongo collection, modelled as a list of documents), and
`routes/sentra_core_routes.py` (the HTTP status mapping, including the
exact exception-handling control flow of the handlers).

Modelling conventions:
- A Mongo collection is a `List SentraCoreModel`; `find_one`, `insert_one`,
  `update_one`, `delete_one` model the driver calls used by the controller.
  Mongo's unique `_id` index is modelled by `insert_one` failing on a
  duplicate id.
- `datetime.utcnow()` readings are `Nat` ticks, passed explicitly: the
  pydantic model has separate `default_factory=datetime.utcnow` for
  `created_at` and `updated_at`, so record construction consumes two reads
  `t1` and `t2` (in field-declaration order).
- `ObjectId()` generation is modelled by `genObjectId`, which produces a
  24-character lowercase hex string from a seed.
- Float coordinates (`x`, `y`) are opaque payloads that the code only
  copies, never computes with; they are embedded as `Int`.
- Python exceptions are `Except String`; the controller's blanket
  `except Exception` re-raise is an `Except.error` with the wrapped message.
-/

/-- Models `bson.ObjectId.is_valid` on strings: a string is a valid id iff it
is exactly 24 hexadecimal characters (either case). -/
def objectId_is_valid (s : String) : Bool :=
  s.length == 24 && s.toList.all (fun c => "0123456789abcdefABCDEF".toList.contains c)

/-- Models `bson.ObjectId(s)` applied to a valid hex string followed by
`str(...)`: the hex digits are parsed to bytes and re-rendered lowercase,
so the round trip lowercases the input (character-wise `toLower`). -/
def objectId_of_str (s : String) : String :=
  String.mk (s.toList.map Char.toLower)

/-- One lowercase hex digit. -/
def hexDigitChar (n : Nat) : Char :=
  "0123456789abcdef".toList.getD n 'x'

/-- Models `bson.ObjectId()` generation: a fresh 24-character lowercase hex
string, here derived from a seed. -/
def genObjectId (seed : Nat) : String :=
  String.mk ((List.range 24).map (fun i => hexDigitChar (seed / 16 ^ i % 16)))

/-- Embeds `models/sentra_core.py` `LabelModel`. -/
structure LabelModel where
  id : String
  text : String
  value : String
  x : Int
  y : Int
  category : String
  deriving DecidableEq

/-- Embeds `models/sentra_core.py` `ConnectionModel`. -/
structure ConnectionModel where
  id : String
  from_id : String
  to_id : String
  deriving DecidableEq

/-- Embeds `models/sentra_core.py` `SentraCoreModel`: the persisted document shape.
`id` holds the string form of the `_id` ObjectId. -/
structure SentraCoreModel where
  id : String
  name : String
  description : String
  labels : List LabelModel
  connections : List ConnectionModel
  selected_option : String
  created_at : Nat
  updated_at : Nat
  deriving DecidableEq

/-- Embeds `models/sentra_core.py` `SentraCoreCreate`, after pydantic validation
(defaults already applied). -/
structure SentraCoreCreate where
  name : String
  description : String
  labels : List LabelModel
  connections : List ConnectionModel
  selected_option : String
  deriving DecidableEq

/-- Embeds `models/sentra_core.py` `SentraCoreUpdate`: every field optional;
`some v` means the field was explicitly set in the request body,
`none` that it was absent (pydantic's unset state). -/
structure SentraCoreUpdate where
  name : Option String
  description : Option String
  labels : Option (List LabelModel)
  connections : Option (List ConnectionModel)
  selected_option : Option String
  deriving DecidableEq

/-- Embeds `routes/sentra_core_routes.py` `FrontendLabel`. -/
structure FrontendLabel where
  id : String
  text : String
  value : String
  x : Int
  y : Int
  category : String
  deriving DecidableEq

/-- Embeds `routes/sentra_core_routes.py` `FrontendConnection`: the wire field
`from` is stored as `from_` (pydantic alias); the wire field `to` is
embedded as `to_` because `to` is a Lean keyword. -/
structure FrontendConnection where
  id : String
  from_ : String
  to_ : String
  deriving DecidableEq

/-- Models `collection.find_one` filtered on `_id`: the first document whose
id equals the key, if any. -/
def find_one : List SentraCoreModel → String → Option SentraCoreModel
  | [], _ => none
  | d :: rest, oid => if d.id = oid then some d else find_one rest oid

/-- Models `collection.insert_one`: appends the document; Mongo's unique
`_id` index makes insertion of a duplicate id fail. -/
def insert_one (coll : List SentraCoreModel) (doc : SentraCoreModel) :
    Except String (List SentraCoreModel) :=
  if coll.any (fun d => d.id == doc.id) then
    Except.error "duplicate key error"
  else
    Except.ok (coll ++ [doc])

/-- The dictionary passed to Mongo `$set` by `update_sentra_core`:
`update_data.model_dump(exclude_unset=True)` (the optional fields that were
explicitly set) plus the unconditional `updated_at` entry. -/
structure UpdateDict where
  name : Option String
  description : Option String
  labels : Option (List LabelModel)
  connections : Option (List ConnectionModel)
  selected_option : Option String
  updated_at : Nat
  deriving DecidableEq

/-- Builds the `$set` dictionary from the patch and the clock reading, as
`update_sentra_core` does. -/
def mkUpdateDict (u : SentraCoreUpdate) (now : Nat) : UpdateDict :=
  { name := u.name, description := u.description, labels := u.labels,
    connections := u.connections, selected_option := u.selected_option,
    updated_at := now }

/-- The field names present in the `$set` dictionary, in pydantic dump order
followed by the `updated_at` assignment. `_id` and `created_at` are not
fields of `SentraCoreUpdate`, so they can never appear. -/
def updateDictKeys (u : SentraCoreUpdate) : List String :=
  (if u.name.isSome then ["name"] else []) ++
  (if u.description.isSome then ["description"] else []) ++
  (if u.labels.isSome then ["labels"] else []) ++
  (if u.connections.isSome then ["connections"] else []) ++
  (if u.selected_option.isSome then ["selected_option"] else []) ++
  ["updated_at"]

/-- Applies a `$set` dictionary to one document: each present field
overwrites the stored value, absent fields are left untouched; `updated_at`
is always present in the dictionary built by the controller. -/
def applySet (d : SentraCoreModel) (u : UpdateDict) : SentraCoreModel :=
  { d with
    name := u.name.getD d.name,
    description := u.description.getD d.description,
    labels := u.labels.getD d.labels,
    connections := u.connections.getD d.connections,
    selected_option := u.selected_option.getD d.selected_option,
    updated_at := u.updated_at }

/-- Models `collection.update_one` on an `_id` filter: rewrites the first
matching document; the second component is Mongo's `modified_count`, which
is 0 when no document matched or the `$set` left the document unchanged. -/
def update_one : List SentraCoreModel → String → UpdateDict →
    List SentraCoreModel × Nat
  | [], _, _ => ([], 0)
  | d :: rest, oid, u =>
    if d.id = oid then
      (applySet d u :: rest, if applySet d u = d then 0 else 1)
    else
      let p := update_one rest oid u
      (d :: p.1, p.2)

/-- Models `collection.delete_one` on an `_id` filter: removes the first
matching document; the second component is `deleted_count`. -/
def delete_one : List SentraCoreModel → String → List SentraCoreModel × Nat
  | [], _ => ([], 0)
  | d :: rest, oid =>
    if d.id = oid then (rest, 1)
    else
      let p := delete_one rest oid
      (d :: p.1, p.2)

/-- The sort key of `find().sort("created_at", -1)`: descending by
`created_at`. -/
def byCreatedAtDesc (a b : SentraCoreModel) : Bool :=
  decide (b.created_at ≤ a.created_at)

/-- Embeds `SentraCoreController.create_sentra_core`: builds a `SentraCoreModel`
from the create request (the id and the two timestamp defaults come from
the pydantic default factories, modelled by `newId`, `t1`, `t2`), inserts
it, then re-reads the stored document by the inserted id. Any failure is
re-raised wrapped by the controller's blanket `except Exception`. -/
def create_sentra_core (coll : List SentraCoreModel) (sentra_core_data : SentraCoreCreate)
    (newId : String) (t1 t2 : Nat) :
    Except String (List SentraCoreModel × SentraCoreModel) :=
  let sentra_core_model : SentraCoreModel :=
    { id := newId, name := sentra_core_data.name,
      description := sentra_core_data.description,
      labels := sentra_core_data.labels,
      connections := sentra_core_data.connections,
      selected_option := sentra_core_data.selected_option,
      created_at := t1, updated_at := t2 }
  match insert_one coll sentra_core_model with
  | Except.error e =>
      Except.error ("Error creating SentraCore configuration: " ++ e)
  | Except.ok coll' =>
      match find_one coll' newId with
      | some created_doc => Except.ok (coll', created_doc)
      | none =>
          Except.error "Error creating SentraCore configuration: missing after insert"

/-- Embeds `SentraCoreController.get_sentra_core_by_id`: the `ValueError` raised on
a malformed id is caught by the controller's own `except Exception` and
re-raised as a plain `Exception` wrapping the message, so the caller never
sees a `ValueError`. A well-formed id that matches nothing yields an
explicit `none`, not an error. -/
def get_sentra_core_by_id (coll : List SentraCoreModel) (sentra_core_id : String) :
    Except String (Option SentraCoreModel) :=
  if objectId_is_valid sentra_core_id = true then
    Except.ok (find_one coll (objectId_of_str sentra_core_id))
  else
    Except.error "Error retrieving SentraCore configuration: Invalid ObjectId format"

/-- Embeds `SentraCoreController.get_all_sentra_core`: `find().skip(skip).limit(limit)
.sort("created_at", -1)` — the Mongo server applies the sort first, then the
skip, then the limit, regardless of the chaining order. -/
def get_all_sentra_core (coll : List SentraCoreModel) (skip limit : Nat) :
    Except String (List SentraCoreModel) :=
  Except.ok (((coll.mergeSort byCreatedAtDesc).drop skip).take limit)

/-- Embeds `SentraCoreController.update_sentra_core`: validates the id (the
`ValueError` is wrapped into a plain `Exception`, as in the getter), builds
the `$set` dictionary from the exclude-unset dump plus `updated_at := now`,
runs `update_one`, and re-reads the document only when `modified_count` is
non-zero; otherwise returns `none`. -/
def update_sentra_core (coll : List SentraCoreModel) (sentra_core_id : String)
    (update_data : SentraCoreUpdate) (now : Nat) :
    Except String (List SentraCoreModel × Option SentraCoreModel) :=
  if objectId_is_valid sentra_core_id = true then
    let oid := objectId_of_str sentra_core_id
    let p := update_one coll oid (mkUpdateDict update_data now)
    if p.2 ≠ 0 then
      match find_one p.1 oid with
      | some updated_doc => Except.ok (p.1, some updated_doc)
      | none => Except.error "Error updating SentraCore configuration: missing after update"
    else
      Except.ok (p.1, none)
  else
    Except.error "Error updating SentraCore configuration: Invalid ObjectId format"

/-- Embeds `SentraCoreController.delete_sentra_core`: validates the id (wrapped
error as above) and reports whether `deleted_count > 0`. -/
def delete_sentra_core (coll : List SentraCoreModel) (sentra_core_id : String) :
    Except String (List SentraCoreModel × Bool) :=
  if objectId_is_valid sentra_core_id = true then
    let p := delete_one coll (objectId_of_str sentra_core_id)
    Except.ok (p.1, decide (0 < p.2))
  else
    Except.error "Error deleting SentraCore configuration: Invalid ObjectId format"

/-- Embeds `SentraCoreController.save_current_state`: converts the frontend shapes
to the model shapes (the loop-built lists are the element-wise images in
order) and delegates to `create_sentra_core`; its own blanket
`except Exception` re-raises any failure of the try block — including a
failure already wrapped by `create_sentra_core` — with the
`Error saving current state: ` prefix around the inner message. -/
def save_current_state (coll : List SentraCoreModel) (name : String)
    (labels : List FrontendLabel) (connections : List FrontendConnection)
    (selected_option : String) (description : String)
    (newId : String) (t1 t2 : Nat) :
    Except String (List SentraCoreModel × SentraCoreModel) :=
  let converted_labels := labels.map (fun label =>
    ({ id := label.id, text := label.text, value := label.value,
       x := label.x, y := label.y, category := label.category } : LabelModel))
  let converted_connections := connections.map (fun connection =>
    ({ id := connection.id, from_id := connection.from_,
       to_id := connection.to_ } : ConnectionModel))
  let sentra_core_data : SentraCoreCreate :=
    { name := name, description := description, labels := converted_labels,
      connections := converted_connections, selected_option := selected_option }
  match create_sentra_core coll sentra_core_data newId t1 t2 with
  | Except.ok p => Except.ok p
  | Except.error e => Except.error ("Error saving current state: " ++ e)

/-- An HTTP outcome: a success body with its status, or an error status with
its detail string. -/
inductive HttpResponse (α : Type) where
  | ok : Nat → α → HttpResponse α
  | err : Nat → String → HttpResponse α
  deriving DecidableEq

/-- A raw create body before pydantic validation: `some` marks a field
present in the JSON. -/
structure RawCreate where
  name : Option String
  description : Option String
  labels : Option (List LabelModel)
  connections : Option (List ConnectionModel)
  selected_option : Option String
  deriving DecidableEq

/-- Models pydantic validation of `SentraCoreCreate` from a request body:
`name` is required (a missing field is a request-validation error, which
FastAPI answers with 422 before the handler runs); the other fields default.
The annotation `name: str` does not exclude the empty string. -/
def parseSentraCoreCreate (r : RawCreate) : Except String SentraCoreCreate :=
  match r.name with
  | none => Except.error "field required: name"
  | some n =>
      Except.ok { name := n, description := r.description.getD "",
                  labels := r.labels.getD [], connections := r.connections.getD [],
                  selected_option := r.selected_option.getD "" }

/-- Route `POST /api/sentra-core/`: body validation failures get FastAPI's
422; any exception inside the handler is answered with 400. -/
def route_create_sentra_core (coll : List SentraCoreModel) (body : RawCreate)
    (newId : String) (t1 t2 : Nat) :
    List SentraCoreModel × HttpResponse SentraCoreModel :=
  match parseSentraCoreCreate body with
  | Except.error e => (coll, HttpResponse.err 422 e)
  | Except.ok sentra_core_data =>
      match create_sentra_core coll sentra_core_data newId t1 t2 with
      | Except.error e => (coll, HttpResponse.err 400 e)
      | Except.ok (coll', doc) => (coll', HttpResponse.ok 201 doc)

/-- Route `GET /api/sentra-core/:sentra_core_id`. Control flow of the
handler's try/except, embedded exactly: a controller failure is a plain
`Exception` (never a `ValueError`, because the controller re-wraps it), so
it is caught by `except Exception` and answered 500 — the
`except ValueError` 400 branch is unreachable. The handler's own
`raise HTTPException(status_code=404)` sits inside the same `try`;
`HTTPException` subclasses `Exception` and is not a `ValueError`, so the
handler catches its own 404 and answers
`HTTPException(500, str(e))` where `str(e)` renders as
`404: SentraCore configuration not found`. -/
def route_get_sentra_core (coll : List SentraCoreModel) (sentra_core_id : String) :
    HttpResponse SentraCoreModel :=
  match get_sentra_core_by_id coll sentra_core_id with
  | Except.error e => HttpResponse.err 500 e
  | Except.ok none => HttpResponse.err 500 "404: SentraCore configuration not found"
  | Except.ok (some doc) => HttpResponse.ok 200 doc

/-- Route `GET /api/sentra-core/` with query parameters: FastAPI enforces
`skip ≥ 0` and `1 ≤ limit ≤ 1000` (422 on violation), with defaults 0 and
100; the repository result is answered 200, a repository failure 500. -/
def route_get_all_sentra_core (coll : List SentraCoreModel)
    (skip? limit? : Option Int) : HttpResponse (List SentraCoreModel) :=
  let skip := skip?.getD 0
  let limit := limit?.getD 100
  if skip < 0 ∨ limit < 1 ∨ 1000 < limit then
    HttpResponse.err 422 "query parameter out of range"
  else
    match get_all_sentra_core coll skip.toNat limit.toNat with
    | Except.ok docs => HttpResponse.ok 200 docs
    | Except.error e => HttpResponse.err 500 e

/-- Route `PUT /api/sentra-core/:sentra_core_id`: same exception-handling
shape as the getter — the controller's wrapped errors and the handler's own
404 both end in the `except Exception` branch, status 500. -/
def route_update_sentra_core (coll : List SentraCoreModel) (sentra_core_id : String)
    (update_data : SentraCoreUpdate) (now : Nat) :
    List SentraCoreModel × HttpResponse SentraCoreModel :=
  match update_sentra_core coll sentra_core_id update_data now with
  | Except.error e => (coll, HttpResponse.err 500 e)
  | Except.ok (coll', none) =>
      (coll', HttpResponse.err 500 "404: SentraCore configuration not found")
  | Except.ok (coll', some doc) => (coll', HttpResponse.ok 200 doc)

/-- Route `DELETE /api/sentra-core/:sentra_core_id`: same exception-handling
shape; a `False` from the controller triggers the handler's own 404, which
its `except Exception` converts to 500. -/
def route_delete_sentra_core (coll : List SentraCoreModel) (sentra_core_id : String) :
    List SentraCoreModel × HttpResponse String :=
  match delete_sentra_core coll sentra_core_id with
  | Except.error e => (coll, HttpResponse.err 500 e)
  | Except.ok (coll', true) =>
      (coll', HttpResponse.ok 200 "SentraCore configuration deleted successfully")
  | Except.ok (coll', false) =>
      (coll', HttpResponse.err 500 "404: SentraCore configuration not found")

/-- Spec-side label translation, stated from the specification's words for
the refinement claim: each `FrontendLabel` maps field-for-field to `Label`. -/
def spec_label_translation (l : FrontendLabel) : LabelModel :=
  { id := l.id, text := l.text, value := l.value, x := l.x, y := l.y,
    category := l.category }

/-- Spec-side connection translation, stated from the specification's words
for the refinement claim: `FrontendConnection` with fields `id`, `from`,
`to` maps to `Connection` with `id := id`, `from_id := from`,
`to_id := to`. -/
def spec_connection_translation (c : FrontendConnection) : ConnectionModel :=
  { id := c.id, from_id := c.from_, to_id := c.to_ }

/-- The patch with no field set: an empty `PUT` body. -/
def emptyPatch : SentraCoreUpdate :=
  { name := none, description := none, labels := none, connections := none,
    selected_option := none }

/-- A patch setting only `name`. -/
def namePatch (n : String) : SentraCoreUpdate :=
  { name := some n, description := none, labels := none, connections := none,
    selected_option := none }

/-- A concrete stored document used by witnesses. -/
def doc0 : SentraCoreModel :=
  { id := "0123456789abcdef01234567", name := "Robot Movement Sequence",
    description := "A sequence of robot movements and actions",
    labels := [{ id := "1", text := "Forward", value := "100", x := 150,
                 y := 200, category := "move" }],
    connections := [{ id := "1-2", from_id := "1", to_id := "2" }],
    selected_option := "move-forward", created_at := 3, updated_at := 3 }

/-- A concrete valid create request used by witnesses and counterexamples. -/
def sampleCreate : SentraCoreCreate :=
  { name := "Robot Movement Sequence", description := "",
    labels := [{ id := "1", text := "Forward", value := "100", x := 150,
                 y := 200, category := "move" }],
    connections := [{ id := "1-2", from_id := "1", to_id := "2" }],
    selected_option := "" }

/-- A document is found iff some stored id matches the key. -/
theorem find_one_eq_none_iff (coll : List SentraCoreModel) (oid : String) :
    find_one coll oid = none ↔ ∀ d ∈ coll, d.id ≠ oid := by
  induction coll with
  | nil => simp [find_one]
  | cons d rest ih =>
    by_cases h : d.id = oid
    · simp [find_one, h]
    · simp [find_one, h, ih]

/-- Appending a fresh document makes it findable by its id. -/
theorem find_one_append_self (coll : List SentraCoreModel) (doc : SentraCoreModel)
    (h : find_one coll doc.id = none) :
    find_one (coll ++ [doc]) doc.id = some doc := by
  induction coll with
  | nil => simp [find_one]
  | cons d rest ih =>
    by_cases hd : d.id = doc.id
    · simp [find_one, hd] at h
    · simp [find_one, hd] at h ⊢
      exact ih h

/-- Running `update_one` with a key matching no document is a no-op with
`modified_count` zero. -/
theorem update_one_of_find_none (coll : List SentraCoreModel) (oid : String)
    (u : UpdateDict) (h : find_one coll oid = none) :
    update_one coll oid u = (coll, 0) := by
  induction coll with
  | nil => simp [update_one]
  | cons d rest ih =>
    by_cases hd : d.id = oid
    · simp [find_one, hd] at h
    · simp [find_one, hd] at h
      simp [update_one, hd, ih h]

/-- Running `update_one` on the first matching document: `modified_count` is one
exactly when the `$set` changed it, and the refreshed lookup returns the
rewritten document. -/
theorem update_one_of_find_some (coll : List SentraCoreModel) (oid : String)
    (u : UpdateDict) (d : SentraCoreModel) (h : find_one coll oid = some d) :
    (update_one coll oid u).2 = (if applySet d u = d then 0 else 1) ∧
    find_one (update_one coll oid u).1 oid = some (applySet d u) := by
  induction coll with
  | nil => simp [find_one] at h
  | cons e rest ih =>
    by_cases he : e.id = oid
    · simp [find_one, he] at h
      subst h
      have hid : (applySet e u).id = e.id := rfl
      constructor
      · simp [update_one, he]
      · simp [update_one, he, find_one, hid]
    · simp [find_one, he] at h
      obtain ⟨h1, h2⟩ := ih h
      constructor
      · simpa [update_one, he] using h1
      · simpa [update_one, he, find_one] using h2

/-- Running `delete_one` with a key matching no document is a no-op with
`deleted_count` zero. -/
theorem delete_one_of_find_none (coll : List SentraCoreModel) (oid : String)
    (h : find_one coll oid = none) :
    delete_one coll oid = (coll, 0) := by
  induction coll with
  | nil => simp [delete_one]
  | cons d rest ih =>
    by_cases hd : d.id = oid
    · simp [find_one, hd] at h
    · simp [find_one, hd] at h
      simp [delete_one, hd, ih h]

/-- Running `delete_one` on a matching document removes exactly one document, and if
at most one stored document carried the key, the key no longer matches
afterwards. -/
theorem delete_one_of_find_some (coll : List SentraCoreModel) (oid : String)
    (d : SentraCoreModel) (h : find_one coll oid = some d) :
    (delete_one coll oid).2 = 1 ∧
    (delete_one coll oid).1.length + 1 = coll.length ∧
    (coll.countP (fun e => e.id == oid) ≤ 1 →
      find_one (delete_one coll oid).1 oid = none) := by
  induction coll with
  | nil => simp [find_one] at h
  | cons e rest ih =>
    by_cases he : e.id = oid
    · refine ⟨by simp [delete_one, he], by simp [delete_one, he], ?_⟩
      intro hcount
      have hcons : (e :: rest).countP (fun x => x.id == oid) =
          rest.countP (fun x => x.id == oid) + 1 := by
        simp [List.countP_cons, he]
      rw [hcons] at hcount
      have hrest : rest.countP (fun x => x.id == oid) = 0 := by omega
      rw [List.countP_eq_zero] at hrest
      simp [delete_one, he]
      rw [find_one_eq_none_iff]
      intro x hx hxid
      exact hrest x hx (by simp [hxid])
    · simp [find_one, he] at h
      obtain ⟨h1, h2, h3⟩ := ih h
      refine ⟨by simpa [delete_one, he] using h1,
              by simpa [delete_one, he] using h2, ?_⟩
      intro hcount
      have : rest.countP (fun e => e.id == oid) ≤ 1 := by
        simp [List.countP_cons] at hcount
        omega
      simpa [delete_one, he, find_one, he] using h3 this

/-- Generated ids are well-formed 24-hex identifiers. -/
theorem objectId_is_valid_genObjectId (seed : Nat) :
    objectId_is_valid (genObjectId seed) = true := by
  have hhex : ∀ m : Nat, m < 16 →
      "0123456789abcdefABCDEF".toList.contains (hexDigitChar m) = true := by decide
  simp only [objectId_is_valid, genObjectId, Bool.and_eq_true, beq_iff_eq,
    List.all_eq_true]
  constructor
  · simp [String.length]
  · intro c hc
    simp only [String.toList, List.mem_map, List.mem_range] at hc
    obtain ⟨i, _, rfl⟩ := hc
    exact hhex _ (Nat.mod_lt _ (by norm_num))

/-- C1: on a malformed identifier, the controller's validation fires before
any store access (the outcome is the same error for every store state), but
the `ValueError` is re-wrapped by the controller's blanket
`except Exception` into a plain `Exception`, so the routes' `except
ValueError` 400 branch never fires and all three identifier-accepting
endpoints answer HTTP 500, not 400. -/
theorem c1_malformed_id_answered_500 :
    (∀ coll, get_sentra_core_by_id coll "zzz" =
      Except.error "Error retrieving SentraCore configuration: Invalid ObjectId format") ∧
    route_get_sentra_core [] "zzz" =
      HttpResponse.err 500 "Error retrieving SentraCore configuration: Invalid ObjectId format" ∧
    (route_update_sentra_core [] "zzz" emptyPatch 0).2 =
      HttpResponse.err 500 "Error updating SentraCore configuration: Invalid ObjectId format" ∧
    (route_delete_sentra_core [] "zzz").2 =
      HttpResponse.err 500 "Error deleting SentraCore configuration: Invalid ObjectId format" :=
  ⟨fun _ => rfl, rfl, rfl, rfl⟩

/-- C2: on a well-formed identifier that matches no stored record, the
repository does return an explicit absent result (not an error), but each
handler's own `raise HTTPException(404)` sits inside its `try` block and is
caught by its `except Exception`, so the GET, PUT and DELETE endpoints
answer HTTP 500, not 404 — the not-found outcome is not distinguished from
unexpected failures. -/
theorem c2_wellformed_absent_id_answered_500 :
    get_sentra_core_by_id [] "0123456789abcdef01234567" = Except.ok none ∧
    route_get_sentra_core [] "0123456789abcdef01234567" =
      HttpResponse.err 500 "404: SentraCore configuration not found" ∧
    (route_update_sentra_core [] "0123456789abcdef01234567" emptyPatch 7).2 =
      HttpResponse.err 500 "404: SentraCore configuration not found" ∧
    (route_delete_sentra_core [] "0123456789abcdef01234567").2 =
      HttpResponse.err 500 "404: SentraCore configuration not found" :=
  ⟨rfl, rfl, rfl, rfl⟩

/-- The record built by `create_sentra_core` for the counterexample run in
which the clock advances between the two default-factory reads. -/
def c3doc : SentraCoreModel :=
  { id := genObjectId 0, name := sampleCreate.name,
    description := sampleCreate.description, labels := sampleCreate.labels,
    connections := sampleCreate.connections,
    selected_option := sampleCreate.selected_option,
    created_at := 0, updated_at := 1 }

/-- C3 counterexample: `created_at` and `updated_at` come from two separate
`datetime.utcnow` default-factory calls during record construction; when the
clock advances between the two reads (here tick 0 to tick 1), the record
returned for a perfectly valid create request has
`created_at ≠ updated_at`, refuting the claim as stated. -/
theorem c3_clock_skew_counterexample :
    create_sentra_core [] sampleCreate (genObjectId 0) 0 1 =
      Except.ok ([c3doc], c3doc) ∧
    c3doc.created_at ≠ c3doc.updated_at := by
  exact ⟨rfl, by decide⟩

/-- C3 (amended): for every valid create request and a fresh generated id,
`create` returns exactly the inserted record: its id is the well-formed
generated 24-hex identifier, its name, description, labels, connections and
selected_option equal the input field-for-field with list order preserved,
and its `created_at` and `updated_at` are the two construction-time clock
reads — hence equal whenever the clock does not advance between the two
reads (the code reads the clock separately for each field). -/
theorem c3_create_returns_input_fields (coll : List SentraCoreModel)
    (data : SentraCoreCreate) (seed t : Nat)
    (hfresh : ∀ d ∈ coll, d.id ≠ genObjectId seed) :
    ∃ r, create_sentra_core coll data (genObjectId seed) t t =
        Except.ok (coll ++ [r], r) ∧
      objectId_is_valid r.id = true ∧
      r.id = genObjectId seed ∧
      r.name = data.name ∧ r.description = data.description ∧
      r.labels = data.labels ∧ r.connections = data.connections ∧
      r.selected_option = data.selected_option ∧
      r.created_at = r.updated_at := by
  have hany : coll.any (fun d => d.id == genObjectId seed) = false := by
    simp only [List.any_eq_false]
    intro d hd
    simpa using hfresh d hd
  have hnone : find_one coll (genObjectId seed) = none :=
    (find_one_eq_none_iff coll (genObjectId seed)).2 hfresh
  refine ⟨{ id := genObjectId seed, name := data.name,
            description := data.description, labels := data.labels,
            connections := data.connections,
            selected_option := data.selected_option,
            created_at := t, updated_at := t },
          ?_, objectId_is_valid_genObjectId seed, rfl, rfl, rfl, rfl, rfl, rfl, rfl⟩
  unfold create_sentra_core
  simp only [insert_one, hany, Bool.false_eq_true, if_false]
  rw [find_one_append_self coll _ hnone]

/-- Witness: the amended create theorem applied to the empty store, a
concrete request, and coinciding clock reads. -/
theorem c3_create_returns_input_fields_witness :
    ∃ r, create_sentra_core [] sampleCreate (genObjectId 0) 5 5 =
        Except.ok ([] ++ [r], r) ∧
      objectId_is_valid r.id = true ∧
      r.id = genObjectId 0 ∧
      r.name = sampleCreate.name ∧ r.description = sampleCreate.description ∧
      r.labels = sampleCreate.labels ∧ r.connections = sampleCreate.connections ∧
      r.selected_option = sampleCreate.selected_option ∧
      r.created_at = r.updated_at :=
  c3_create_returns_input_fields [] sampleCreate 0 5 (by simp)

/-- C4: for every well-formed identifier and every patch, `update` returns
the refreshed stored record exactly when the store reports a non-zero
`modified_count` (the `$set` changed the matched document); it returns the
absent result both when no record matched the identifier and when the
update modified zero fields; and `updated_at` is set to the current clock
reading as part of the same `$set`. -/
theorem c4_update_outcomes (coll : List SentraCoreModel) (sentra_core_id : String)
    (update_data : SentraCoreUpdate) (now : Nat)
    (hv : objectId_is_valid sentra_core_id = true) :
    (find_one coll (objectId_of_str sentra_core_id) = none →
       update_sentra_core coll sentra_core_id update_data now =
         Except.ok (coll, none)) ∧
    (∀ d, find_one coll (objectId_of_str sentra_core_id) = some d →
       applySet d (mkUpdateDict update_data now) = d →
       update_sentra_core coll sentra_core_id update_data now =
         Except.ok ((update_one coll (objectId_of_str sentra_core_id)
           (mkUpdateDict update_data now)).1, none)) ∧
    (∀ d, find_one coll (objectId_of_str sentra_core_id) = some d →
       applySet d (mkUpdateDict update_data now) ≠ d →
       update_sentra_core coll sentra_core_id update_data now =
         Except.ok ((update_one coll (objectId_of_str sentra_core_id)
             (mkUpdateDict update_data now)).1,
           some (applySet d (mkUpdateDict update_data now))) ∧
       find_one (update_one coll (objectId_of_str sentra_core_id)
           (mkUpdateDict update_data now)).1 (objectId_of_str sentra_core_id) =
         some (applySet d (mkUpdateDict update_data now)) ∧
       (applySet d (mkUpdateDict update_data now)).updated_at = now) := by
  refine ⟨?_, ?_, ?_⟩
  · intro h
    have hu := update_one_of_find_none coll _ (mkUpdateDict update_data now) h
    simp [update_sentra_core, hv, hu]
  · intro d hd heq
    obtain ⟨h2, _⟩ := update_one_of_find_some coll _ (mkUpdateDict update_data now) d hd
    have hz : (update_one coll (objectId_of_str sentra_core_id)
        (mkUpdateDict update_data now)).2 = 0 := by rw [h2, if_pos heq]
    simp [update_sentra_core, hv, hz]
  · intro d hd hne
    obtain ⟨h2, h3⟩ := update_one_of_find_some coll _ (mkUpdateDict update_data now) d hd
    have hz : (update_one coll (objectId_of_str sentra_core_id)
        (mkUpdateDict update_data now)).2 = 1 := by rw [h2, if_neg hne]
    exact ⟨by simp [update_sentra_core, hv, hz, h3], h3, rfl⟩

/-- Witness: the update theorem at a well-formed id over the empty store —
no record matches, so the result is the explicit absent outcome. -/
theorem c4_update_outcomes_witness :
    update_sentra_core [] "0123456789abcdef01234567" emptyPatch 5 =
      Except.ok ([], none) :=
  (c4_update_outcomes [] "0123456789abcdef01234567" emptyPatch 5 (by decide)).1 rfl

/-- C5: updating an existing record with a patch that sets only `name`
leaves a stored record that differs from the old one exactly in `name` and
`updated_at`; its labels, connections, `created_at` and id are untouched
(fields absent from the patch are never written). -/
theorem c5_update_name_only_frame (coll : List SentraCoreModel)
    (sentra_core_id : String) (n : String) (now : Nat) (d : SentraCoreModel)
    (hv : objectId_is_valid sentra_core_id = true)
    (hd : find_one coll (objectId_of_str sentra_core_id) = some d) :
    ∃ res,
      update_sentra_core coll sentra_core_id (namePatch n) now =
        Except.ok ((update_one coll (objectId_of_str sentra_core_id)
          (mkUpdateDict (namePatch n) now)).1, res) ∧
      find_one (update_one coll (objectId_of_str sentra_core_id)
          (mkUpdateDict (namePatch n) now)).1 (objectId_of_str sentra_core_id) =
        some { d with name := n, updated_at := now } ∧
      ({ d with name := n, updated_at := now } : SentraCoreModel).labels = d.labels ∧
      ({ d with name := n, updated_at := now } : SentraCoreModel).connections =
        d.connections ∧
      ({ d with name := n, updated_at := now } : SentraCoreModel).created_at =
        d.created_at ∧
      ({ d with name := n, updated_at := now } : SentraCoreModel).id = d.id := by
  obtain ⟨h2, h3⟩ := update_one_of_find_some coll _ (mkUpdateDict (namePatch n) now) d hd
  by_cases heq : applySet d (mkUpdateDict (namePatch n) now) = d
  · have hz : (update_one coll (objectId_of_str sentra_core_id)
        (mkUpdateDict (namePatch n) now)).2 = 0 := by rw [h2, if_pos heq]
    exact ⟨none, by simp [update_sentra_core, hv, hz], h3, rfl, rfl, rfl, rfl⟩
  · have hz : (update_one coll (objectId_of_str sentra_core_id)
        (mkUpdateDict (namePatch n) now)).2 = 1 := by rw [h2, if_neg heq]
    exact ⟨some (applySet d (mkUpdateDict (namePatch n) now)),
      by simp [update_sentra_core, hv, hz, h3], h3, rfl, rfl, rfl, rfl⟩

/-- Witness: the name-only-update frame theorem at a concrete one-record
store. -/
theorem c5_update_name_only_frame_witness :
    ∃ res,
      update_sentra_core [doc0] "0123456789abcdef01234567" (namePatch "renamed") 7 =
        Except.ok ((update_one [doc0] (objectId_of_str "0123456789abcdef01234567")
          (mkUpdateDict (namePatch "renamed") 7)).1, res) ∧
      find_one (update_one [doc0] (objectId_of_str "0123456789abcdef01234567")
          (mkUpdateDict (namePatch "renamed") 7)).1
          (objectId_of_str "0123456789abcdef01234567") =
        some { doc0 with name := "renamed", updated_at := 7 } ∧
      ({ doc0 with name := "renamed", updated_at := 7 } : SentraCoreModel).labels =
        doc0.labels ∧
      ({ doc0 with name := "renamed", updated_at := 7 } : SentraCoreModel).connections =
        doc0.connections ∧
      ({ doc0 with name := "renamed", updated_at := 7 } : SentraCoreModel).created_at =
        doc0.created_at ∧
      ({ doc0 with name := "renamed", updated_at := 7 } : SentraCoreModel).id =
        doc0.id :=
  c5_update_name_only_frame [doc0] "0123456789abcdef01234567" "renamed" 7 doc0
    (by decide) (by decide)

/-- C6: for a well-formed identifier (over a store whose ids are unique, as
Mongo's `_id` index guarantees), `delete` succeeds with `true` exactly when
a record with that identifier existed; it removed exactly one record in
that case; with `false` the store is untouched; afterwards a lookup of the
same identifier returns the explicit absent result, and deleting again
returns `false`, not an error. -/
theorem c6_delete_semantics (coll : List SentraCoreModel) (sentra_core_id : String)
    (hv : objectId_is_valid sentra_core_id = true)
    (hu : coll.countP (fun e => e.id == objectId_of_str sentra_core_id) ≤ 1) :
    ∃ coll' b,
      delete_sentra_core coll sentra_core_id = Except.ok (coll', b) ∧
      (b = true ↔ (find_one coll (objectId_of_str sentra_core_id)).isSome = true) ∧
      (b = true → coll'.length + 1 = coll.length) ∧
      (b = false → coll' = coll) ∧
      get_sentra_core_by_id coll' sentra_core_id = Except.ok none ∧
      delete_sentra_core coll' sentra_core_id = Except.ok (coll', false) := by
  cases hf : find_one coll (objectId_of_str sentra_core_id) with
  | none =>
    have hdel := delete_one_of_find_none coll _ hf
    refine ⟨coll, false, ?_, ?_, ?_, ?_, ?_, ?_⟩
    · simp [delete_sentra_core, hv, hdel]
    · simp [hf]
    · simp
    · simp
    · simp [get_sentra_core_by_id, hv, hf]
    · simp [delete_sentra_core, hv, hdel]
  | some d =>
    obtain ⟨h1, h2, h3⟩ := delete_one_of_find_some coll _ d hf
    have hafter := h3 hu
    have hdel2 := delete_one_of_find_none _ _ hafter
    refine ⟨(delete_one coll (objectId_of_str sentra_core_id)).1, true,
      ?_, ?_, ?_, ?_, ?_, ?_⟩
    · simp [delete_sentra_core, hv, h1]
    · simp [hf]
    · intro
      exact h2
    · simp
    · simp [get_sentra_core_by_id, hv, hafter]
    · simp [delete_sentra_core, hv, hdel2]

/-- Witness: the delete theorem at a concrete one-record store with a
matching well-formed id. -/
theorem c6_delete_semantics_witness :
    ∃ coll' b,
      delete_sentra_core [doc0] "0123456789abcdef01234567" = Except.ok (coll', b) ∧
      (b = true ↔
        (find_one [doc0] (objectId_of_str "0123456789abcdef01234567")).isSome = true) ∧
      (b = true → coll'.length + 1 = [doc0].length) ∧
      (b = false → coll' = [doc0]) ∧
      get_sentra_core_by_id coll' "0123456789abcdef01234567" = Except.ok none ∧
      delete_sentra_core coll' "0123456789abcdef01234567" =
        Except.ok (coll', false) :=
  c6_delete_semantics [doc0] "0123456789abcdef01234567" (by decide) (by decide)

/-- C7: for every store and every skip/limit accepted at the API boundary
(`skip ≥ 0`, `1 ≤ limit ≤ 1000`, defaults 0 and 100), the list endpoint
answers 200 with the records sorted by `created_at` descending, the first
`skip` of them dropped and at most `limit` returned; the repository itself
imposes no bounds — they live in the route's query validation. -/
theorem c7_list_sorted_paginated (coll : List SentraCoreModel) (skip limit : Int)
    (h0 : 0 ≤ skip) (h1 : 1 ≤ limit) (h2 : limit ≤ 1000) :
    route_get_all_sentra_core coll (some skip) (some limit) =
      HttpResponse.ok 200
        (((coll.mergeSort byCreatedAtDesc).drop skip.toNat).take limit.toNat) ∧
    (coll.mergeSort byCreatedAtDesc).Perm coll ∧
    (((coll.mergeSort byCreatedAtDesc).drop skip.toNat).take limit.toNat).Pairwise
      (fun a b => b.created_at ≤ a.created_at) ∧
    (((coll.mergeSort byCreatedAtDesc).drop skip.toNat).take limit.toNat).length
      ≤ limit.toNat ∧
    route_get_all_sentra_core coll none none =
      route_get_all_sentra_core coll (some 0) (some 100) ∧
    (∀ s l : Nat, get_all_sentra_core coll s l =
      Except.ok (((coll.mergeSort byCreatedAtDesc).drop s).take l)) := by
  have hnot : ¬ (skip < 0 ∨ limit < 1 ∨ 1000 < limit) := by
    push_neg
    exact ⟨h0, h1, h2⟩
  have hsorted : (coll.mergeSort byCreatedAtDesc).Pairwise
      (fun a b => byCreatedAtDesc a b) := by
    refine List.sorted_mergeSort ?_ ?_ coll
    · intro a b c hab hbc
      simp only [byCreatedAtDesc, decide_eq_true_eq] at hab hbc ⊢
      omega
    · intro a b
      simp only [byCreatedAtDesc, Bool.or_eq_true, decide_eq_true_eq]
      omega
  have hsub : (((coll.mergeSort byCreatedAtDesc).drop skip.toNat).take
      limit.toNat).Sublist (coll.mergeSort byCreatedAtDesc) :=
    (List.take_sublist _ _).trans (List.drop_sublist _ _)
  refine ⟨?_, List.mergeSort_perm coll byCreatedAtDesc, ?_, ?_, rfl,
    fun s l => rfl⟩
  · simp [route_get_all_sentra_core, hnot, get_all_sentra_core]
  · exact (List.Pairwise.sublist hsub hsorted).imp
      (fun hab => by simpa [byCreatedAtDesc] using hab)
  · exact List.length_take_le _ _

/-- Witness: the pagination theorem at the default skip and limit over a
two-record store. -/
theorem c7_list_sorted_paginated_witness :
    route_get_all_sentra_core [doc0, c3doc] (some 0) (some 100) =
      HttpResponse.ok 200
        ((([doc0, c3doc].mergeSort byCreatedAtDesc).drop (0 : Int).toNat).take
          (100 : Int).toNat) ∧
    ([doc0, c3doc].mergeSort byCreatedAtDesc).Perm [doc0, c3doc] ∧
    ((([doc0, c3doc].mergeSort byCreatedAtDesc).drop (0 : Int).toNat).take
      (100 : Int).toNat).Pairwise (fun a b => b.created_at ≤ a.created_at) ∧
    ((([doc0, c3doc].mergeSort byCreatedAtDesc).drop (0 : Int).toNat).take
      (100 : Int).toNat).length ≤ (100 : Int).toNat ∧
    route_get_all_sentra_core [doc0, c3doc] none none =
      route_get_all_sentra_core [doc0, c3doc] (some 0) (some 100) ∧
    (∀ s l : Nat, get_all_sentra_core [doc0, c3doc] s l =
      Except.ok ((([doc0, c3doc].mergeSort byCreatedAtDesc).drop s).take l)) :=
  c7_list_sorted_paginated [doc0, c3doc] 0 100 (by decide) (by decide) (by decide)

/-- C8: `save_current_state` is `create` applied to the pure element-wise
translation of the frontend input: labels map field-for-field, connections
map id to id, from to from_id, to to to_id, list order is preserved, and
nothing else changes — every successful create outcome is returned
unchanged, and the two computations differ only on the failure path, where
`save_current_state` re-wraps the inner message with its documented
`Error saving current state: ` prefix. -/
theorem c8_save_state_refines_create (coll : List SentraCoreModel)
    (name description selected_option : String)
    (labels : List FrontendLabel) (connections : List FrontendConnection)
    (newId : String) (t1 t2 : Nat) :
    save_current_state coll name labels connections selected_option description
        newId t1 t2 =
      Except.mapError (fun e => "Error saving current state: " ++ e)
        (create_sentra_core coll
          { name := name, description := description,
            labels := labels.map spec_label_translation,
            connections := connections.map spec_connection_translation,
            selected_option := selected_option } newId t1 t2) ∧
    (∀ coll' r,
      create_sentra_core coll
          { name := name, description := description,
            labels := labels.map spec_label_translation,
            connections := connections.map spec_connection_translation,
            selected_option := selected_option } newId t1 t2 =
        Except.ok (coll', r) →
      save_current_state coll name labels connections selected_option description
          newId t1 t2 = Except.ok (coll', r)) := by
  constructor
  · show (match create_sentra_core coll
        { name := name, description := description,
          labels := labels.map spec_label_translation,
          connections := connections.map spec_connection_translation,
          selected_option := selected_option } newId t1 t2 with
      | Except.ok p => Except.ok p
      | Except.error e => Except.error ("Error saving current state: " ++ e)) =
      Except.mapError (fun e => "Error saving current state: " ++ e)
        (create_sentra_core coll
          { name := name, description := description,
            labels := labels.map spec_label_translation,
            connections := connections.map spec_connection_translation,
            selected_option := selected_option } newId t1 t2)
    cases create_sentra_core coll
        { name := name, description := description,
          labels := labels.map spec_label_translation,
          connections := connections.map spec_connection_translation,
          selected_option := selected_option } newId t1 t2 <;> rfl
  · intro coll' r h
    show (match create_sentra_core coll
        { name := name, description := description,
          labels := labels.map spec_label_translation,
          connections := connections.map spec_connection_translation,
          selected_option := selected_option } newId t1 t2 with
      | Except.ok p => Except.ok p
      | Except.error e => Except.error ("Error saving current state: " ++ e)) =
      Except.ok (coll', r)
    rw [h]

/-- The record created by the concrete witness run of the save-state
refinement. -/
def saveDoc : SentraCoreModel :=
  { id := genObjectId 0, name := "Robot Movement Sequence",
    description := "demo",
    labels := [{ id := "1", text := "Forward", value := "100", x := 150,
                 y := 200, category := "move" }],
    connections := [{ id := "1-2", from_id := "1", to_id := "2" }],
    selected_option := "move-forward", created_at := 4, updated_at := 4 }

/-- Witness: the save-state refinement at a concrete frontend request whose
create succeeds — the saved record is exactly the created one. -/
theorem c8_save_state_refines_create_witness :
    save_current_state [] "Robot Movement Sequence"
        [{ id := "1", text := "Forward", value := "100", x := 150, y := 200,
           category := "move" }]
        [{ id := "1-2", from_ := "1", to_ := "2" }]
        "move-forward" "demo" (genObjectId 0) 4 4 =
      Except.ok ([saveDoc], saveDoc) :=
  (c8_save_state_refines_create [] "Robot Movement Sequence" "demo"
      "move-forward"
      [{ id := "1", text := "Forward", value := "100", x := 150, y := 200,
         category := "move" }]
      [{ id := "1-2", from_ := "1", to_ := "2" }]
      (genObjectId 0) 4 4).2 [saveDoc] saveDoc rfl

/-- The raw create body whose name is present but empty. -/
def emptyNameBody : RawCreate :=
  { name := some "", description := none, labels := none, connections := none,
    selected_option := none }

/-- The record the create route persists for the empty-name body. -/
def emptyNameDoc : SentraCoreModel :=
  { id := genObjectId 0, name := "", description := "", labels := [],
    connections := [], selected_option := "", created_at := 0, updated_at := 0 }

/-- C9 counterexample: a create request whose `name` is the empty string is
not rejected — the annotation is `str`, with no non-empty constraint — and
the create route persists and returns, with status 201, a record whose name
is empty. -/
theorem c9_empty_name_persisted_counterexample :
    route_create_sentra_core [] emptyNameBody (genObjectId 0) 0 0 =
      ([emptyNameDoc], HttpResponse.ok 201 emptyNameDoc) ∧
    emptyNameDoc.name = "" :=
  ⟨rfl, rfl⟩

/-- C9 (amended): `name` is required — a body with `name` absent fails
request validation, which FastAPI answers before the handler (HTTP 422, not
the handler's 400 branch) — and a supplied name is stored verbatim; but the
empty string is an accepted name: nothing rejects it, and a record with an
empty name is persisted. -/
theorem c9_name_required_but_empty_allowed (r : RawCreate) :
    ((∃ e, parseSentraCoreCreate r = Except.error e) ↔ r.name = none) ∧
    (∀ n c, parseSentraCoreCreate r = Except.ok c → r.name = some n →
      c.name = n) ∧
    (r.name = none → ∀ coll newId t1 t2,
      route_create_sentra_core coll r newId t1 t2 =
        (coll, HttpResponse.err 422 "field required: name")) ∧
    route_create_sentra_core [] emptyNameBody (genObjectId 0) 0 0 =
      ([emptyNameDoc], HttpResponse.ok 201 emptyNameDoc) := by
  refine ⟨?_, ?_, ?_, rfl⟩
  · cases h : r.name <;> simp [parseSentraCoreCreate, h]
  · intro n c hok hn
    simp only [parseSentraCoreCreate, hn] at hok
    cases hok
    rfl
  · intro hn coll newId t1 t2
    simp [route_create_sentra_core, parseSentraCoreCreate, hn]

/-- Witness: the name rules applied to the concrete empty-name body. -/
theorem c9_name_required_but_empty_allowed_witness :
    ({ name := "", description := "", labels := [], connections := [],
       selected_option := "" } : SentraCoreCreate).name = "" :=
  (c9_name_required_but_empty_allowed emptyNameBody).2.1 ""
    { name := "", description := "", labels := [], connections := [],
      selected_option := "" } rfl rfl

/-- C10: the `$set` dictionary of every update contains exactly the fields
explicitly set in the patch plus `updated_at`: `_id` and `created_at` can
never appear (so an update can never change a record's identifier or
creation timestamp, which `applySet` preserves for every document), and
`updated_at` is present even for the empty patch, so an empty patch on an
existing record still writes a fresh `updated_at`. -/
theorem c10_update_writes_exact_fields (u : SentraCoreUpdate) (now : Nat)
    (coll : List SentraCoreModel) (oid : String) (d : SentraCoreModel)
    (hd : find_one coll oid = some d) :
    ("updated_at" ∈ updateDictKeys u ∧ "_id" ∉ updateDictKeys u ∧
      "created_at" ∉ updateDictKeys u) ∧
    (("name" ∈ updateDictKeys u ↔ u.name.isSome = true) ∧
     ("description" ∈ updateDictKeys u ↔ u.description.isSome = true) ∧
     ("labels" ∈ updateDictKeys u ↔ u.labels.isSome = true) ∧
     ("connections" ∈ updateDictKeys u ↔ u.connections.isSome = true) ∧
     ("selected_option" ∈ updateDictKeys u ↔ u.selected_option.isSome = true)) ∧
    (∀ e, (applySet e (mkUpdateDict u now)).id = e.id ∧
          (applySet e (mkUpdateDict u now)).created_at = e.created_at) ∧
    find_one (update_one coll oid (mkUpdateDict emptyPatch now)).1 oid =
      some { d with updated_at := now } := by
  obtain ⟨_, h3⟩ := update_one_of_find_some coll oid (mkUpdateDict emptyPatch now) d hd
  refine ⟨?_, ?_, fun e => ⟨rfl, rfl⟩, h3⟩
  · obtain ⟨n1, n2, n3, n4, n5⟩ := u
    cases n1 <;> cases n2 <;> cases n3 <;> cases n4 <;> cases n5 <;>
      simp [updateDictKeys]
  · obtain ⟨n1, n2, n3, n4, n5⟩ := u
    cases n1 <;> cases n2 <;> cases n3 <;> cases n4 <;> cases n5 <;>
      simp [updateDictKeys]

/-- Witness: the write-set theorem for the empty patch over the concrete
one-record store — the record keeps everything but gets a fresh
`updated_at`. -/
theorem c10_update_writes_exact_fields_witness :
    find_one (update_one [doc0] doc0.id (mkUpdateDict emptyPatch 9)).1 doc0.id =
      some { doc0 with updated_at := 9 } :=
  (c10_update_writes_exact_fields emptyPatch 9 [doc0] doc0.id doc0 rfl).2.2.2
